import Mathlib

/-!
Shallow embedding of `django_redis_sentinel/sentinel.py` (class `SentinelClient`).

The embedding models, faithfully to the Python source:
  * `parse_connection_string` (descriptor parsing, including Python's
    `str.split` and `int` semantics),
  * `connect` (sentinel discovery and connection building),
  * `get_client` (lazy caching of one write and one read connection),
  * `close` (teardown, gated on the process-wide
    `DJANGO_REDIS_CLOSE_CONNECTION` setting),
  * `exception_check` (the failover-recovery decorator).

External collaborators (the `redis.sentinel.Sentinel` monitor client, the
connection factory, and `random.choice`) are modelled as an oracle supplied
in a `World` value; the queries issued to the monitor client are recorded in
a trace so that "never queries the replica list"-style properties are
statable.
-/

namespace DjangoRedisSentinel

/-- Python exceptions relevant to the source module.  `connectionResetError`
models the builtin `ConnectionResetError` (a subclass of the builtin
`ConnectionError`, which is why `isFatal` treats it as caught by the
`except (ConnectionError, ReadOnlyError, ConnectionInterrupted)` clause). -/
inductive PyExc where
  | connectionError (msg : String)
  | readOnlyError (msg : String)
  | connectionInterrupted (msg : String)
  | connectionResetError (msg : String)
  | improperlyConfigured (msg : String)
  | otherExc (name : String) (msg : String)
deriving DecidableEq, Repr

/-- Python `str(e)` for the exceptions we model: the message. -/
def PyExc.str : PyExc → String
  | .connectionError m => m
  | .readOnlyError m => m
  | .connectionInterrupted m => m
  | .connectionResetError m => m
  | .improperlyConfigured m => m
  | .otherExc _ m => m

/-- Python `s.split(sep)` for a single-character separator: splitting the
empty string yields `[""]`, and separators at the ends yield empty pieces. -/
def pySplit (sep : Char) : List Char → List (List Char)
  | [] => [[]]
  | c :: cs =>
    let r := pySplit sep cs
    if c = sep then [] :: r
    else
      match r with
      | g :: gs => (c :: g) :: gs
      | [] => [[c]]

/-- `pySplit` on `String`s. -/
def pySplitStr (sep : Char) (s : String) : List String :=
  (pySplit sep s.toList).map (fun cs => String.mk cs)

/-- Decimal digits, Python style: a digit, then digits optionally separated
by single underscores (`int("1_0") = 10`); anything else is rejected. -/
def pyDigitsAux : List Char → Nat → Option Nat
  | [], acc => some acc
  | '_' :: c :: cs, acc =>
    if c.isDigit then pyDigitsAux cs (acc * 10 + (c.toNat - '0'.toNat)) else none
  | c :: cs, acc =>
    if c.isDigit then pyDigitsAux cs (acc * 10 + (c.toNat - '0'.toNat)) else none

/-- Nonempty digit sequence (underscores allowed between digits). -/
def pyDigits : List Char → Option Nat
  | c :: cs => if c.isDigit then pyDigitsAux cs (c.toNat - '0'.toNat) else none
  | [] => none

/-- Strip leading and trailing whitespace, as Python `int` does. -/
def stripWs (cs : List Char) : List Char :=
  ((cs.dropWhile Char.isWhitespace).reverse.dropWhile Char.isWhitespace).reverse

/-- Python `int(s)`: optional surrounding whitespace, optional sign, then a
nonempty digit sequence; `none` models the `ValueError`. -/
def pythonInt (s : String) : Option Int :=
  match stripWs s.toList with
  | '+' :: rest => (pyDigits rest).map (fun n => (n : Int))
  | '-' :: rest => (pyDigits rest).map (fun n => -(n : Int))
  | rest => (pyDigits rest).map (fun n => (n : Int))

/-- The result of `parse_connection_string`: master name, sentinel
`(host, port)` list, and db segment. -/
structure Descriptor where
  masterName : String
  sentinelHosts : List (String × Int)
  db : String
deriving DecidableEq, Repr

/-- The `ImproperlyConfigured("Incorrect format '%s'" % constring)` value. -/
def configError (constring : String) : PyExc :=
  .improperlyConfigured ("Incorrect format '" ++ constring ++ "'")

/-- One element of the `servers` list comprehension together with the
`(host, int(port))` tuple construction: `host_port.split(':')` must yield
exactly two pieces (the tuple unpacking), and the port must parse as an
integer; `none` models the `ValueError` raised otherwise. -/
def split_host_port (hp : String) : Option (String × Int) :=
  match pySplitStr ':' hp with
  | [host, port] => (pythonInt port).map (fun p => (host, p))
  | _ => none

/-- The `sentinel_hosts` list comprehension: builds the `(host, int(port))`
list, failing (Python `ValueError`) as soon as one endpoint is malformed. -/
def map_host_ports : List String → Option (List (String × Int))
  | [] => some []
  | hp :: rest =>
    match split_host_port hp, map_host_ports rest with
    | some v, some vs => some (v :: vs)
    | _, _ => none

/--
`SentinelClient.parse_connection_string`.  Python raises `IndexError` when
`connection_params` has fewer than 2 (for `[1]`) or 3 (for `[2]`) elements,
and `ValueError` from tuple unpacking or `int`; all are mapped to the same
`ImproperlyConfigured` carrying the raw string.  `connection_params[0]`
never fails because `str.split` returns a nonempty list (`headD` is only a
total spelling of that access).
-/
def parse_connection_string (constring : String) : Except PyExc Descriptor :=
  match (pySplitStr '/' constring).get? 1, (pySplitStr '/' constring).get? 2 with
  | some seg1, some seg2 =>
    match map_host_ports (pySplitStr ',' seg1) with
    | some hosts => .ok ⟨(pySplitStr '/' constring).headD "", hosts, seg2⟩
    | none => .error (configError constring)
  | _, _ => .error (configError constring)

/-- A native redis connection as produced by
`self.connection_factory.connect(connection_url)`.  `id` models Python
object identity (reference equality), `url` the locator it was built from,
and `pool` the number of sockets in
`connection_pool._available_connections` (owned by the external factory). -/
structure Conn where
  id : Nat
  url : String
  pool : Nat
deriving DecidableEq, Repr

/-- The arguments the source passes when constructing
`Sentinel(sentinel_hosts, socket_timeout=sentinel_timeout, password=password)`. -/
structure SentinelArgs where
  hosts : List (String × Int)
  socket_timeout : Int
  password : Option String
deriving DecidableEq, Repr

/-- A query issued to the monitor (sentinel) client. -/
inductive Query where
  | master (name : String)
  | slaves (name : String)
deriving DecidableEq, Repr

/-- Behaviour of the external collaborators: the sentinel monitor client
(`discover_master` / `discover_slaves`) and the pool size the connection
factory gives a freshly built connection. -/
structure SentinelOracle where
  discover_master : SentinelArgs → String → Except PyExc (String × Int)
  discover_slaves : SentinelArgs → String → Except PyExc (List (String × Int))
  pool_of : Nat → Nat

/-- The ambient world threaded through effectful calls: the oracle, the next
fresh object identity for the connection factory, and the random draw that
`random.choice` uses (it picks index `randNat % length`). -/
structure World where
  oracle : SentinelOracle
  nextId : Nat
  randNat : Nat

/-- Mutable state of a `SentinelClient` instance, together with the settings
it reads: `_options` (`SENTINEL_TIMEOUT`, `PASSWORD`) and the process-wide
`settings.DJANGO_REDIS_CLOSE_CONNECTION` flag. -/
structure ClientState where
  client_write : Option Conn
  client_read : Option Conn
  connection_string : String
  options_sentinel_timeout : Option Int
  options_password : Option String
  close_connection_setting : Bool
deriving DecidableEq, Repr

/-- The `connection_url` format strings; Python's `if password:` is
truthiness, so an empty-string password selects the no-auth format. -/
def mk_connection_url (password : Option String) (host : String) (port : Int)
    (db : String) : String :=
  match password with
  | some p =>
    if p ≠ "" then
      "redis://:" ++ p ++ "@" ++ host ++ ":" ++ toString port ++ "/" ++ db
    else
      "redis://" ++ host ++ ":" ++ toString port ++ "/" ++ db
  | none => "redis://" ++ host ++ ":" ++ toString port ++ "/" ++ db

/-- `self.connection_factory.connect(connection_url)`: builds a fresh
connection object. -/
def factory_connect (w : World) (url : String) : Conn × World :=
  (⟨w.nextId, url, w.oracle.pool_of w.nextId⟩, { w with nextId := w.nextId + 1 })

/-- Helper assembling the tail of `connect` (url construction and factory
call) once a `(host, port)` has been chosen. -/
def build_connection (st : ClientState) (w : World) (host : String) (port : Int)
    (db : String) (trace : List Query) : Except PyExc Conn × World × List Query :=
  let url := mk_connection_url st.options_password host port db
  let (c, w') := factory_connect w url
  (.ok c, w', trace)

/-- The `sentinel_timeout` / `password` option lookups (`_options.get`,
with defaults `1` and `None`) and the
`Sentinel(sentinel_hosts, socket_timeout=…, password=…)` construction. -/
def sentinel_args (st : ClientState) (d : Descriptor) : SentinelArgs :=
  ⟨d.sentinelHosts, st.options_sentinel_timeout.getD 1, st.options_password⟩

/--
`SentinelClient.connect`.  Parses the connection string, constructs the
sentinel client from the options, then: for a write, discovers the master
(failures propagate); for a read, discovers the slaves and applies
`random.choice` — the `except IndexError` branch (empty slave list) falls
back to `discover_master`.  Returns the result, the updated world, and the
trace of monitor queries issued.
-/
def connect (st : ClientState) (w : World) (write : Bool) :
    Except PyExc Conn × World × List Query :=
  match parse_connection_string st.connection_string with
  | .error e => (.error e, w, [])
  | .ok d =>
    let args : SentinelArgs := sentinel_args st d
    if write then
      match w.oracle.discover_master args d.masterName with
      | .error e => (.error e, w, [.master d.masterName])
      | .ok (host, port) => build_connection st w host port d.db [.master d.masterName]
    else
      match w.oracle.discover_slaves args d.masterName with
      | .error e => (.error e, w, [.slaves d.masterName])
      | .ok [] =>
        match w.oracle.discover_master args d.masterName with
        | .error e => (.error e, w, [.slaves d.masterName, .master d.masterName])
        | .ok (host, port) =>
          build_connection st w host port d.db [.slaves d.masterName, .master d.masterName]
      | .ok (hp :: rest) =>
        let chosen := (hp :: rest).getD (w.randNat % (hp :: rest).length) hp
        build_connection st w chosen.1 chosen.2 d.db [.slaves d.masterName]

/--
`SentinelClient.get_client`.  Returns the cached connection for the
requested mode, or connects and caches.  The Python function returns either
the bare client or the tuple `(client, 0)` when `show_index` is set; this is
modelled as `Conn × Option Nat` (`none` for the bare return, `some i` for the
tuple).  Also returns the resulting client state, world, and the monitor
queries performed.
-/
def get_client (st : ClientState) (w : World) (write : Bool) (show_index : Bool) :
    Except PyExc (Conn × Option Nat) × ClientState × World × List Query :=
  if write then
    match st.client_write with
    | some c => (.ok (c, if show_index then some 0 else none), st, w, [])
    | none =>
      match connect st w true with
      | (.ok c, w', t) =>
        (.ok (c, if show_index then some 0 else none),
          { st with client_write := some c }, w', t)
      | (.error e, w', t) => (.error e, st, w', t)
  else
    match st.client_read with
    | some c => (.ok (c, if show_index then some 0 else none), st, w, [])
    | none =>
      match connect st w false with
      | (.ok c, w', t) =>
        (.ok (c, if show_index then some 0 else none),
          { st with client_read := some c }, w', t)
      | (.error e, w', t) => (.error e, st, w', t)

/--
`SentinelClient.close`.  The entire body — disconnecting the pooled sockets
of each cached client AND clearing the two slots — is guarded by
`settings.DJANGO_REDIS_CLOSE_CONNECTION`; with the flag unset the method
does nothing at all.  The returned `Nat` counts the `c.disconnect()` calls
performed (the teardown work).
-/
def close (st : ClientState) : ClientState × Nat :=
  if st.close_connection_setting then
    let dRead := match st.client_read with | some c => c.pool | none => 0
    let dWrite := match st.client_write with | some c => c.pool | none => 0
    ({ st with client_write := none, client_read := none }, dRead + dWrite)
  else
    (st, 0)

/-- Outcome of running a wrapped cache operation: a normal return or a
raised exception. -/
inductive OpOutcome (α : Type) where
  | ok (v : α)
  | exc (e : PyExc)
deriving DecidableEq, Repr

/-- Whether an exception is caught by
`except (ConnectionError, ReadOnlyError, ConnectionInterrupted)`.
`connectionResetError` is caught because the builtin `ConnectionResetError`
subclasses the builtin `ConnectionError`. -/
def isFatal : PyExc → Bool
  | .connectionError _ => true
  | .readOnlyError _ => true
  | .connectionInterrupted _ => true
  | .connectionResetError _ => true
  | .improperlyConfigured _ => false
  | .otherExc _ _ => false

/-- The message of the `ConnectionResetError` raised by the wrapper:
`f'Error: \x7be\x7d, closing old connections'`. -/
def resetMessage (e : PyExc) : String :=
  "Error: " ++ e.str ++ ", closing old connections"

/--
`SentinelClient.exception_check`: runs the wrapped operation; if it raises
one of the three caught exception classes, calls `self.close()` and raises
`ConnectionResetError`; otherwise the outcome passes through untouched.
The operation itself is modelled as a function on the client state and
world; the returned `Nat` counts the `self.close()` calls the wrapper made.
-/
def exception_check {α : Type}
    (op : ClientState → World → OpOutcome α × ClientState × World)
    (st : ClientState) (w : World) : OpOutcome α × ClientState × World × Nat :=
  match op st w with
  | (.ok v, st', w') => (.ok v, st', w', 0)
  | (.exc e, st', w') =>
    if isFatal e then
      (.exc (.connectionResetError (resetMessage e)), (close st').1, w', 1)
    else
      (.exc e, st', w', 0)

end DjangoRedisSentinel

namespace DjangoRedisSentinel

example : pySplitStr '/' "a/b:1/c" = ["a", "b:1", "c"] := by decide

example : parse_connection_string "mymaster/host:1234/0" =
    .ok ⟨"mymaster", [("host", 1234)], "0"⟩ := rfl

example : parse_connection_string "mymaster/bad/0" =
    .error (configError "mymaster/bad/0") := rfl

example : parse_connection_string "m/h:1/0/extra" =
    .ok ⟨"m", [("h", 1)], "0"⟩ := rfl

example : parse_connection_string "/h:1/" =
    .ok ⟨"", [("h", 1)], ""⟩ := rfl

example : parse_connection_string "m//0" = .error (configError "m//0") := rfl

example : parse_connection_string "m" = .error (configError "m") := rfl

def demoOracle : SentinelOracle where
  discover_master := fun _ _ => .ok ("mh", 7)
  discover_slaves := fun _ _ => .ok [("s1", 1), ("s2", 2)]
  pool_of := fun _ => 3

def demoWorld : World := ⟨demoOracle, 100, 1⟩

def demoState : ClientState :=
  ⟨none, none, "cluster1/h1:1,h2:2/3", none, none, false⟩

/-- An oracle whose monitor quorum is unreachable: every discovery fails. -/
def failOracle : SentinelOracle where
  discover_master := fun _ _ => .error (.connectionError "No master found")
  discover_slaves := fun _ _ => .error (.connectionError "No master found")
  pool_of := fun _ => 0

def failWorld : World := ⟨failOracle, 0, 0⟩

def staleConnW : Conn := ⟨5, "redis://old:1/0", 2⟩

def staleConnR : Conn := ⟨6, "redis://old2:2/0", 1⟩

/-- A client state holding two cached (possibly stale) connections while the
process-wide `DJANGO_REDIS_CLOSE_CONNECTION` setting is unset — which is its
Django default, reached whenever the setting is absent. -/
def staleState : ClientState :=
  ⟨some staleConnW, some staleConnR, "cluster1/h1:1,h2:2/3", none, none, false⟩

/-- A wrapped operation that returns normally. -/
def opOkConst : ClientState → World → OpOutcome Nat × ClientState × World :=
  fun st w => (.ok 42, st, w)

/-- A wrapped operation raising a transport-level (`ConnectionError`)
exception. -/
def opFatalConst : ClientState → World → OpOutcome Nat × ClientState × World :=
  fun st w => (.exc (.connectionError "boom"), st, w)

/-- A wrapped operation raising an unrelated (`KeyError`-like) exception. -/
def opOtherConst : ClientState → World → OpOutcome Nat × ClientState × World :=
  fun st w => (.exc (.otherExc "KeyError" "k"), st, w)

example :
    (get_client demoState demoWorld false false).1 =
      .ok (⟨100, "redis://s2:2/3", 3⟩, none) := rfl

example :
    (get_client demoState demoWorld true false).1 =
      .ok (⟨100, "redis://mh:7/3", 3⟩, none) := rfl

example :
    (get_client demoState demoWorld true false).2.2.2 = [.master "cluster1"] := rfl

/-! ### Helper lemmas -/

/-- Python `str.split` never returns an empty list. -/
theorem pySplit_ne_nil (sep : Char) (cs : List Char) : pySplit sep cs ≠ [] := by
  cases cs with
  | nil => simp [pySplit]
  | cons c cs =>
    simp only [pySplit]
    split
    · simp
    · split
      · simp
      · simp

theorem pySplitStr_ne_nil (sep : Char) (s : String) : pySplitStr sep s ≠ [] := by
  simp only [pySplitStr, ne_eq, List.map_eq_nil_iff]
  exact pySplit_ne_nil sep s.toList

/-- Building the endpoint list fails exactly when some endpoint is
malformed. -/
theorem map_host_ports_eq_none (l : List String) :
    map_host_ports l = none ↔ ∃ hp ∈ l, split_host_port hp = none := by
  induction l with
  | nil => simp [map_host_ports]
  | cons hp rest ih =>
    simp only [map_host_ports]
    cases h : split_host_port hp with
    | none =>
      simp only [List.mem_cons]
      exact iff_of_true trivial ⟨hp, Or.inl rfl, h⟩
    | some v =>
      cases hrest : map_host_ports rest with
      | none =>
        rcases ih.mp hrest with ⟨x, hx, hxn⟩
        simp only [List.mem_cons]
        exact iff_of_true trivial ⟨x, Or.inr hx, hxn⟩
      | some hs =>
        simp only [List.mem_cons]
        constructor
        · intro hcontra
          cases hcontra
        · rintro ⟨x, hx, hxn⟩
          rcases hx with hx1 | hx2
          · rw [hx1] at hxn
            rw [hxn] at h
            cases h
          · exfalso
            have hnone : map_host_ports rest = none := ih.mpr ⟨x, hx2, hxn⟩
            rw [hnone] at hrest
            cases hrest

/-- A successful endpoint-list build over a nonempty list is nonempty. -/
theorem map_host_ports_ne_nil (l : List String) (hs : List (String × Int))
    (hne : l ≠ []) (h : map_host_ports l = some hs) : hs ≠ [] := by
  cases l with
  | nil => exact absurd rfl hne
  | cons hp rest =>
    simp only [map_host_ports] at h
    cases hhp : split_host_port hp with
    | none => simp [hhp] at h
    | some v =>
      cases hrest : map_host_ports rest with
      | none => simp [hhp, hrest] at h
      | some hs' =>
        simp only [hhp, hrest, Option.some.injEq] at h
        rw [← h]
        simp

/-- `List.getD` at an in-range index yields a member of the list. -/
theorem getD_mem_of_lt {α : Type} (l : List α) (i : Nat) (d : α)
    (h : i < l.length) : l.getD i d ∈ l := by
  rw [List.getD_eq_getElem l d h]
  exact List.getElem_mem h

/-- Any `ImproperlyConfigured` raised by `parse_connection_string` is the
one carrying the raw input string. -/
theorem parse_error_eq (s : String) (e : PyExc)
    (he : parse_connection_string s = .error e) : e = configError s := by
  unfold parse_connection_string at he
  split at he
  · split at he
    · cases he
    · injection he with h
      exact h.symm
  · injection he with h
    exact h.symm

/-- `parse_connection_string` fails exactly when a segment is missing
(fewer than three pieces) or some endpoint in the second segment is
malformed. -/
theorem parse_fails_iff (s : String) :
    (∃ e, parse_connection_string s = .error e) ↔
      ((pySplitStr '/' s).length ≤ 2 ∨
        ∃ seg1, (pySplitStr '/' s).get? 1 = some seg1 ∧
          ∃ hp ∈ pySplitStr ',' seg1, split_host_port hp = none) := by
  cases h1 : (pySplitStr '/' s).get? 1 with
  | none =>
    have hlen : (pySplitStr '/' s).length ≤ 1 := List.get?_eq_none.mp h1
    have hpe : parse_connection_string s = .error (configError s) := by
      unfold parse_connection_string
      rw [h1]
    exact iff_of_true ⟨configError s, hpe⟩ (Or.inl (le_trans hlen (by norm_num)))
  | some seg1 =>
    cases h2 : (pySplitStr '/' s).get? 2 with
    | none =>
      have hlen : (pySplitStr '/' s).length ≤ 2 := List.get?_eq_none.mp h2
      have hpe : parse_connection_string s = .error (configError s) := by
        unfold parse_connection_string
        rw [h1, h2]
      exact iff_of_true ⟨configError s, hpe⟩ (Or.inl hlen)
    | some seg2 =>
      cases hmap : map_host_ports (pySplitStr ',' seg1) with
      | none =>
        have hpe : parse_connection_string s = .error (configError s) := by
          unfold parse_connection_string
          rw [h1, h2]
          show (match map_host_ports (pySplitStr ',' seg1) with
            | some hosts =>
              Except.ok (⟨(pySplitStr '/' s).headD "", hosts, seg2⟩ : Descriptor)
            | none => Except.error (configError s)) = Except.error (configError s)
          rw [hmap]
        exact iff_of_true ⟨configError s, hpe⟩
          (Or.inr ⟨seg1, rfl, (map_host_ports_eq_none _).mp hmap⟩)
      | some hosts =>
        have hok : parse_connection_string s =
            .ok ⟨(pySplitStr '/' s).headD "", hosts, seg2⟩ := by
          unfold parse_connection_string
          rw [h1, h2]
          show (match map_host_ports (pySplitStr ',' seg1) with
            | some hosts =>
              Except.ok (⟨(pySplitStr '/' s).headD "", hosts, seg2⟩ : Descriptor)
            | none => Except.error (configError s)) =
            Except.ok (⟨(pySplitStr '/' s).headD "", hosts, seg2⟩ : Descriptor)
          rw [hmap]
        refine iff_of_false ?_ ?_
        · rintro ⟨e, he⟩
          rw [hok] at he
          cases he
        · rintro (hle | ⟨seg1', hseg1', hbad⟩)
          · obtain ⟨hlt, -⟩ := List.get?_eq_some.mp h2
            exact absurd hlt (not_lt.mpr hle)
          · injection hseg1' with hseg
            rw [← hseg] at hbad
            have hmn : map_host_ports (pySplitStr ',' seg1) = none :=
              (map_host_ports_eq_none _).mpr hbad
            rw [hmn] at hmap
            cases hmap

/-- Successful-parse equation: with at least three segments and a
well-formed endpoint list, `parse_connection_string` returns the descriptor
assembled from the first three segments. -/
theorem parse_ok_eq (s seg1 seg2 : String) (hosts : List (String × Int))
    (h1 : (pySplitStr '/' s).get? 1 = some seg1)
    (h2 : (pySplitStr '/' s).get? 2 = some seg2)
    (hmap : map_host_ports (pySplitStr ',' seg1) = some hosts) :
    parse_connection_string s = .ok ⟨(pySplitStr '/' s).headD "", hosts, seg2⟩ := by
  unfold parse_connection_string
  rw [h1, h2]
  show (match map_host_ports (pySplitStr ',' seg1) with
    | some hosts =>
      Except.ok (⟨(pySplitStr '/' s).headD "", hosts, seg2⟩ : Descriptor)
    | none => Except.error (configError s)) =
    Except.ok (⟨(pySplitStr '/' s).headD "", hosts, seg2⟩ : Descriptor)
  rw [hmap]

/-- A failing parse always produces the `configError` value. -/
theorem parse_fails_eq (s : String)
    (h : ∃ e, parse_connection_string s = .error e) :
    parse_connection_string s = .error (configError s) := by
  rcases h with ⟨e, he⟩
  rw [he, parse_error_eq s e he]

/-- `parse_connection_string` returns `.ok` exactly when it does not fail. -/
theorem parse_ok_iff_not_fail (s : String) :
    (∃ d, parse_connection_string s = .ok d) ↔
      ¬(∃ e, parse_connection_string s = .error e) := by
  cases h : parse_connection_string s with
  | ok d => simp [h]
  | error e => simp [h]

/-! ### Claim theorems -/

/-- C5: `parse_connection_string` raises `ImproperlyConfigured` carrying
the offending raw string exactly when a segment is missing or some endpoint
of the second segment is malformed (non-integer port, wrong `host:port`
shape — which also covers an empty endpoint list, since an empty second
segment yields the single malformed endpoint `""`); otherwise it succeeds
with a complete descriptor, with no partial success.  In particular
`parse("mymaster/bad/0")` fails and `parse("mymaster/host:1234/0")`
succeeds with exactly the endpoint `("host", 1234)`. -/
theorem C5_parse_error_policy (s : String) :
    (∀ e, parse_connection_string s = .error e → e = configError s) ∧
    ((∃ e, parse_connection_string s = .error e) ↔
      ((pySplitStr '/' s).length ≤ 2 ∨
        ∃ seg1, (pySplitStr '/' s).get? 1 = some seg1 ∧
          ∃ hp ∈ pySplitStr ',' seg1, split_host_port hp = none)) ∧
    parse_connection_string "mymaster/bad/0" =
      .error (configError "mymaster/bad/0") ∧
    parse_connection_string "mymaster/host:1234/0" =
      .ok ⟨"mymaster", [("host", 1234)], "0"⟩ :=
  ⟨fun e he => parse_error_eq s e he, parse_fails_iff s, rfl, rfl⟩

/-- Witness for C5 at concrete inputs: `parse("m")` (a missing segment)
fails with the error carrying `"m"`. -/
theorem C5_parse_error_policy_witness :
    configError "m" = configError "m" ∧
    (∃ e, parse_connection_string "m" = .error e) :=
  ⟨(C5_parse_error_policy "m").1 (configError "m") rfl,
   (C5_parse_error_policy "m").2.1.mpr (Or.inl (by decide))⟩

/-- C8 counterexample: an input with four `/`-separated segments parses
successfully (the segments beyond the third are ignored), refuting "more
than three segments fails with a ConfigurationError". -/
theorem C8_counterexample :
    (pySplitStr '/' "m/h:1/0/extra").length = 4 ∧
    parse_connection_string "m/h:1/0/extra" = .ok ⟨"m", [("h", 1)], "0"⟩ :=
  ⟨by decide, rfl⟩

/-- C8 amended: parse fails with a `ConfigurationError` whenever there are
fewer than three `/`-separated segments, and succeeds exactly when there are
at least three segments and every endpoint of the second one is well-formed;
segments beyond the third are ignored (the descriptor is built from the
first three). -/
theorem C8_amended (s : String) :
    ((pySplitStr '/' s).length < 3 →
      parse_connection_string s = .error (configError s)) ∧
    ((∃ d, parse_connection_string s = .ok d) ↔
      (3 ≤ (pySplitStr '/' s).length ∧
        ∀ seg1, (pySplitStr '/' s).get? 1 = some seg1 →
          ∀ hp ∈ pySplitStr ',' seg1, split_host_port hp ≠ none)) ∧
    (∀ d, parse_connection_string s = .ok d →
      d.masterName = (pySplitStr '/' s).headD "" ∧
      d.db = (pySplitStr '/' s).getD 2 "") := by
  refine ⟨?_, ?_, ?_⟩
  · intro hlt
    exact parse_fails_eq s
      ((parse_fails_iff s).mpr (Or.inl (Nat.lt_succ_iff.mp hlt)))
  · rw [parse_ok_iff_not_fail, parse_fails_iff]
    push_neg
    constructor
    · rintro ⟨hlen, hgood⟩
      exact ⟨hlen, fun seg1 hseg1 hp hhp => hgood seg1 hseg1 hp hhp⟩
    · rintro ⟨hlen, hgood⟩
      exact ⟨hlen, fun seg1 hseg1 hp hhp => hgood seg1 hseg1 hp hhp⟩
  · intro d hd
    cases h1 : (pySplitStr '/' s).get? 1 with
    | none =>
      have he := parse_fails_eq s ((parse_fails_iff s).mpr
        (Or.inl (le_trans (List.get?_eq_none.mp h1) (by norm_num))))
      rw [he] at hd
      cases hd
    | some seg1 =>
      cases h2 : (pySplitStr '/' s).get? 2 with
      | none =>
        have he := parse_fails_eq s ((parse_fails_iff s).mpr
          (Or.inl (List.get?_eq_none.mp h2)))
        rw [he] at hd
        cases hd
      | some seg2 =>
        cases hmap : map_host_ports (pySplitStr ',' seg1) with
        | none =>
          have he := parse_fails_eq s ((parse_fails_iff s).mpr
            (Or.inr ⟨seg1, h1, (map_host_ports_eq_none _).mp hmap⟩))
          rw [he] at hd
          cases hd
        | some hosts =>
          have hok := parse_ok_eq s seg1 seg2 hosts h1 h2 hmap
          rw [hok] at hd
          injection hd with h
          refine ⟨by rw [← h], ?_⟩
          rw [← h]
          show seg2 = (pySplitStr '/' s).getD 2 ""
          obtain ⟨hlt, hget⟩ := List.get?_eq_some.mp h2
          rw [List.getD_eq_getElem _ _ hlt, ← hget]
          rfl

/-- Witness for C8's amended statement at concrete inputs: a two-segment
string fails, and a parsed descriptor is assembled from the first three
segments. -/
theorem C8_amended_witness :
    parse_connection_string "m/h:1" = .error (configError "m/h:1") ∧
    ((⟨"a", [("b", 1)], "c"⟩ : Descriptor).masterName =
        (pySplitStr '/' "a/b:1/c").headD "" ∧
      (⟨"a", [("b", 1)], "c"⟩ : Descriptor).db =
        (pySplitStr '/' "a/b:1/c").getD 2 "") :=
  ⟨(C8_amended "m/h:1").1 (by decide),
   (C8_amended "a/b:1/c").2.2 ⟨"a", [("b", 1)], "c"⟩ rfl⟩

/-- C9 counterexample: a string with an empty cluster-name segment and an
empty db-index segment is accepted by parse, producing a descriptor with
empty `masterName` and empty `db` — refuting "the cluster name … and the db
index is non-empty" and "a string violating any of these … is rejected". -/
theorem C9_counterexample :
    parse_connection_string "/h:1/" = .ok ⟨"", [("h", 1)], ""⟩ ∧
    (Descriptor.masterName ⟨"", [("h", 1)], ""⟩ = "" ∧
      Descriptor.db ⟨"", [("h", 1)], ""⟩ = "") :=
  ⟨rfl, rfl, rfl⟩

/-- C9 amended: every descriptor successfully produced by parse has at
least one `(host, port)` endpoint entry (ports are integers by
construction); the cluster name, db index, and endpoint hosts are passed
through unvalidated and may be empty strings. -/
theorem C9_amended (s : String) (d : Descriptor)
    (h : parse_connection_string s = .ok d) : d.sentinelHosts ≠ [] := by
  cases h1 : (pySplitStr '/' s).get? 1 with
  | none =>
    have he := parse_fails_eq s ((parse_fails_iff s).mpr
      (Or.inl (le_trans (List.get?_eq_none.mp h1) (by norm_num))))
    rw [he] at h
    cases h
  | some seg1 =>
    cases h2 : (pySplitStr '/' s).get? 2 with
    | none =>
      have he := parse_fails_eq s ((parse_fails_iff s).mpr
        (Or.inl (List.get?_eq_none.mp h2)))
      rw [he] at h
      cases h
    | some seg2 =>
      cases hmap : map_host_ports (pySplitStr ',' seg1) with
      | none =>
        have he := parse_fails_eq s ((parse_fails_iff s).mpr
          (Or.inr ⟨seg1, h1, (map_host_ports_eq_none _).mp hmap⟩))
        rw [he] at h
        cases h
      | some hosts =>
        have hok := parse_ok_eq s seg1 seg2 hosts h1 h2 hmap
        rw [hok] at h
        injection h with h
        rw [← h]
        exact map_host_ports_ne_nil (pySplitStr ',' seg1) hosts
          (pySplitStr_ne_nil ',' seg1) hmap

/-- Witness for C9's amended statement at a concrete input. -/
theorem C9_amended_witness :
    (⟨"mymaster", [("host", 1234)], "0"⟩ : Descriptor).sentinelHosts ≠ [] :=
  C9_amended "mymaster/host:1234/0" ⟨"mymaster", [("host", 1234)], "0"⟩ rfl

/-- C1 fails on the code: with the process-wide eager-close flag unset (the
default), `close()` is a complete no-op — it performs no teardown AND leaves
both slots populated, so the next `getConnection` of either mode returns the
stale cached connection and performs no discovery (empty query trace),
contradicting "calling reset() leaves both the write slot and the read slot
empty, regardless of whether the process-wide eager-close flag is set". -/
theorem C1_close_noop_when_flag_unset :
    close staleState = (staleState, 0) ∧
    (close staleState).1.client_write = some staleConnW ∧
    (close staleState).1.client_read = some staleConnR ∧
    (get_client (close staleState).1 demoWorld false false).1 =
      .ok (staleConnR, none) ∧
    (get_client (close staleState).1 demoWorld false false).2.2.2 = [] ∧
    (get_client (close staleState).1 demoWorld true false).1 =
      .ok (staleConnW, none) ∧
    (get_client (close staleState).1 demoWorld true false).2.2.2 = [] :=
  ⟨rfl, rfl, rfl, rfl, rfl, rfl, rfl⟩

/-- C2: a wrapped operation that raises one of the three caught exception
classes results in exactly one `close()` call and a distinguishable
`ConnectionResetError`; any other exception propagates unchanged with no
`close()`; a normal return is passed through unchanged. -/
theorem C2_exception_check_policy {α : Type}
    (op : ClientState → World → OpOutcome α × ClientState × World)
    (st : ClientState) (w : World) :
    (∀ v st' w', op st w = (.ok v, st', w') →
      exception_check op st w = (.ok v, st', w', 0)) ∧
    (∀ e st' w', op st w = (.exc e, st', w') → isFatal e = true →
      exception_check op st w =
        (.exc (.connectionResetError (resetMessage e)), (close st').1, w', 1)) ∧
    (∀ e st' w', op st w = (.exc e, st', w') → isFatal e = false →
      exception_check op st w = (.exc e, st', w', 0)) := by
  refine ⟨?_, ?_, ?_⟩
  · intro v st' w' h
    simp [exception_check, h]
  · intro e st' w' h hf
    simp [exception_check, h, hf]
  · intro e st' w' h hf
    simp [exception_check, h, hf]

/-- Witness for C2 covering all three branches at concrete operations. -/
theorem C2_exception_check_policy_witness :
    exception_check opOkConst demoState demoWorld =
      (.ok 42, demoState, demoWorld, 0) ∧
    exception_check opFatalConst demoState demoWorld =
      (.exc (.connectionResetError (resetMessage (.connectionError "boom"))),
        demoState, demoWorld, 1) ∧
    exception_check opOtherConst demoState demoWorld =
      (.exc (.otherExc "KeyError" "k"), demoState, demoWorld, 0) :=
  ⟨(C2_exception_check_policy opOkConst demoState demoWorld).1
      42 demoState demoWorld rfl,
   (C2_exception_check_policy opFatalConst demoState demoWorld).2.1
      (.connectionError "boom") demoState demoWorld rfl rfl,
   (C2_exception_check_policy opOtherConst demoState demoWorld).2.2
      (.otherExc "KeyError" "k") demoState demoWorld rfl rfl⟩

/-- C3: a read request on an empty read slot connects to the endpoint that
`random.choice` picks from a non-empty replica list (always a member of the
list), and falls back to the master's endpoint when the replica list is
empty. -/
theorem C3_read_prefers_replica (st : ClientState) (w : World) (d : Descriptor)
    (hslot : st.client_read = none)
    (hparse : parse_connection_string st.connection_string = .ok d) :
    (∀ x l, w.oracle.discover_slaves (sentinel_args st d) d.masterName =
        .ok (x :: l) →
      ((x :: l).getD (w.randNat % (x :: l).length) x ∈ x :: l ∧
        (get_client st w false false).1 =
          .ok ((factory_connect w (mk_connection_url st.options_password
            ((x :: l).getD (w.randNat % (x :: l).length) x).1
            ((x :: l).getD (w.randNat % (x :: l).length) x).2 d.db)).1,
            none))) ∧
    (∀ host port, w.oracle.discover_slaves (sentinel_args st d) d.masterName =
        .ok [] →
      w.oracle.discover_master (sentinel_args st d) d.masterName =
        .ok (host, port) →
      (get_client st w false false).1 =
        .ok ((factory_connect w
          (mk_connection_url st.options_password host port d.db)).1, none)) := by
  constructor
  · intro x l hs
    refine ⟨getD_mem_of_lt _ _ _ (Nat.mod_lt _ (Nat.succ_pos _)), ?_⟩
    simp [get_client, hslot, connect, hparse, hs, build_connection]
  · intro host port hs hm
    simp [get_client, hslot, connect, hparse, hs, hm, build_connection]

/-- Witness for C3: both the replica case (with `demoWorld`, whose random
draw selects index 1) and the empty-replica fallback case. -/
theorem C3_read_prefers_replica_witness :
    ((("s1", (1 : Int)) :: [("s2", 2)]).getD
        (demoWorld.randNat % (("s1", (1 : Int)) :: [("s2", 2)]).length)
        ("s1", 1) ∈ ("s1", (1 : Int)) :: [("s2", 2)]) ∧
    (get_client demoState demoWorld false false).1 =
      .ok (⟨100, "redis://s2:2/3", 3⟩, none) :=
  ⟨((C3_read_prefers_replica demoState demoWorld
      ⟨"cluster1", [("h1", 1), ("h2", 2)], "3"⟩ rfl rfl).1
      ("s1", 1) [("s2", 2)] rfl).1,
   ((C3_read_prefers_replica demoState demoWorld
      ⟨"cluster1", [("h1", 1), ("h2", 2)], "3"⟩ rfl rfl).1
      ("s1", 1) [("s2", 2)] rfl).2⟩

/-- C4: a write request on an empty write slot queries the monitor client
only for the master — the query trace is exactly `[master]`, containing no
replica-list query — and a master-discovery failure propagates unmodified. -/
theorem C4_write_queries_master_only (st : ClientState) (w : World)
    (d : Descriptor)
    (hslot : st.client_write = none)
    (hparse : parse_connection_string st.connection_string = .ok d) :
    (get_client st w true false).2.2.2 = [Query.master d.masterName] ∧
    (∀ n, Query.slaves n ∉ (get_client st w true false).2.2.2) ∧
    (∀ e, w.oracle.discover_master (sentinel_args st d) d.masterName =
        .error e →
      (get_client st w true false).1 = .error e) := by
  have htrace : (get_client st w true false).2.2.2 = [Query.master d.masterName] := by
    cases hm : w.oracle.discover_master (sentinel_args st d) d.masterName with
    | error e => simp [get_client, hslot, connect, hparse, hm, build_connection]
    | ok hp =>
      obtain ⟨host, port⟩ := hp
      simp [get_client, hslot, connect, hparse, hm, build_connection]
  refine ⟨htrace, ?_, ?_⟩
  · intro n
    rw [htrace]
    simp
  · intro e hm
    simp [get_client, hslot, connect, hparse, hm]

/-- Witness for C4: the trace contains only the master query, and with an
unreachable quorum the discovery error surfaces unchanged. -/
theorem C4_write_queries_master_only_witness :
    (get_client demoState demoWorld true false).2.2.2 =
      [Query.master "cluster1"] ∧
    (get_client demoState failWorld true false).1 =
      .error (.connectionError "No master found") :=
  ⟨(C4_write_queries_master_only demoState demoWorld
      ⟨"cluster1", [("h1", 1), ("h2", 2)], "3"⟩ rfl rfl).1,
   (C4_write_queries_master_only demoState failWorld
      ⟨"cluster1", [("h1", 1), ("h2", 2)], "3"⟩ rfl rfl).2.2
      (.connectionError "No master found") rfl⟩

/-- C6: after a successful `get_client`, the built connection is cached in
the slot for the requested mode, and an immediately repeated call with the
same `write` value returns the identical connection object, with unchanged
state and world and an empty query trace (no discovery). -/
theorem C6_get_client_idempotent_cache (st : ClientState) (w : World)
    (write : Bool) (c : Conn)
    (h : (get_client st w write false).1 = .ok (c, none)) :
    (if write then (get_client st w write false).2.1.client_write
      else (get_client st w write false).2.1.client_read) = some c ∧
    get_client (get_client st w write false).2.1
        (get_client st w write false).2.2.1 write false =
      (.ok (c, none), (get_client st w write false).2.1,
        (get_client st w write false).2.2.1, []) := by
  cases write with
  | true =>
    cases hw : st.client_write with
    | some c0 =>
      simp only [get_client, hw] at h ⊢
      simp at h
      subst h
      simp [hw]
    | none =>
      rcases hc : connect st w true with ⟨r, w', t⟩
      cases r with
      | error e =>
        rw [show (get_client st w true false) = (.error e, st, w', t) by
          simp [get_client, hw, hc]] at h
        cases h
      | ok c0 =>
        have hrun : get_client st w true false =
            (.ok (c0, none), { st with client_write := some c0 }, w', t) := by
          simp [get_client, hw, hc]
        rw [hrun] at h
        simp at h
        subst h
        rw [hrun]
        simp [get_client]
  | false =>
    cases hw : st.client_read with
    | some c0 =>
      simp only [get_client, hw] at h ⊢
      simp at h
      subst h
      simp [hw]
    | none =>
      rcases hc : connect st w false with ⟨r, w', t⟩
      cases r with
      | error e =>
        rw [show (get_client st w false false) = (.error e, st, w', t) by
          simp [get_client, hw, hc]] at h
        cases h
      | ok c0 =>
        have hrun : get_client st w false false =
            (.ok (c0, none), { st with client_read := some c0 }, w', t) := by
          simp [get_client, hw, hc]
        rw [hrun] at h
        simp at h
        subst h
        rw [hrun]
        simp [get_client]

/-- Witness for C6: a fresh read connection is cached and the repeated call
returns the identical object with no further discovery. -/
theorem C6_get_client_idempotent_cache_witness :
    (get_client demoState demoWorld false false).2.1.client_read =
      some ⟨100, "redis://s2:2/3", 3⟩ ∧
    get_client (get_client demoState demoWorld false false).2.1
        (get_client demoState demoWorld false false).2.2.1 false false =
      (.ok (⟨100, "redis://s2:2/3", 3⟩, none),
        (get_client demoState demoWorld false false).2.1,
        (get_client demoState demoWorld false false).2.2.1, []) :=
  C6_get_client_idempotent_cache demoState demoWorld false
    ⟨100, "redis://s2:2/3", 3⟩ rfl

/-- C7: if `connect` fails for a request whose slot is empty, the error
propagates from `get_client`, the client state is unchanged, and the slot
for that mode remains empty — no partially-initialized connection is cached
or returned. -/
theorem C7_error_leaves_slot_empty (st : ClientState) (w : World)
    (write : Bool) (e : PyExc)
    (hslot : (if write then st.client_write else st.client_read) = none)
    (herr : (connect st w write).1 = .error e) :
    (get_client st w write false).1 = .error e ∧
    (get_client st w write false).2.1 = st ∧
    (if write then (get_client st w write false).2.1.client_write
      else (get_client st w write false).2.1.client_read) = none := by
  rcases hc : connect st w write with ⟨r, w', t⟩
  rw [hc] at herr
  simp only at herr
  subst herr
  cases write with
  | true =>
    simp at hslot
    simp [get_client, hslot, hc]
  | false =>
    simp at hslot
    simp [get_client, hslot, hc]

/-- Witness for C7: with an unreachable quorum, a write request fails, the
state is unchanged and the write slot stays empty. -/
theorem C7_error_leaves_slot_empty_witness :
    (get_client demoState failWorld true false).1 =
      .error (.connectionError "No master found") ∧
    (get_client demoState failWorld true false).2.1 = demoState ∧
    (get_client demoState failWorld true false).2.1.client_write = none :=
  C7_error_leaves_slot_empty demoState failWorld true
    (.connectionError "No master found") rfl rfl

/-- C10: `get_client` with `show_index=True` returns the pair of the very
connection the plain call would return together with the constant index `0`
(modelled as `some 0`), in both modes and whether or not the connection was
cached, leaving state, world, and query trace identical. -/
theorem C10_show_index_pairs_zero (st : ClientState) (w : World)
    (write : Bool) :
    get_client st w write true =
      ((get_client st w write false).1.map (fun p => (p.1, some 0)),
        (get_client st w write false).2) := by
  cases write with
  | true =>
    cases hw : st.client_write with
    | some c0 => simp [get_client, hw, Except.map]
    | none =>
      rcases hc : connect st w true with ⟨r, w', t⟩
      cases r with
      | error e => simp [get_client, hw, hc, Except.map]
      | ok c0 => simp [get_client, hw, hc, Except.map]
  | false =>
    cases hw : st.client_read with
    | some c0 => simp [get_client, hw, Except.map]
    | none =>
      rcases hc : connect st w false with ⟨r, w', t⟩
      cases r with
      | error e => simp [get_client, hw, hc, Except.map]
      | ok c0 => simp [get_client, hw, hc, Except.map]

end DjangoRedisSentinel
